import Mathlib

/-!
Verification of the proactive private chat plugin (src/plugin.py) against its
natural-language specification.

Modelling conventions for the shallow embedding:
* Timestamps (`time.time()` floats) and the random draw are rationals `ℚ`.
* The process-wide cooldown dictionary `PrivateChatCooldown._cooldowns` is an
  association list `List (String × ℚ)`; dictionary assignment is modelled by
  consing the new binding in front, which has the same lookup semantics.
* Calls into the host APIs (`person_api`, `chat_api`, `send_api`) are modelled
  by passing their results as explicit parameters; a value of type
  `Except String α` models a call that may raise an exception (the `error`
  payload is the exception text that the code interpolates into messages).
* Python `int()` on a float is truncation toward zero; Python `str.replace`
  replaces all non-overlapping occurrences left to right.
-/

/-- Python `int()` applied to a rational: truncation toward zero
(`Int.tdiv` is T-division, which truncates toward zero). -/
def pyTrunc (x : ℚ) : ℤ := x.num.tdiv x.den

/-- Python `str.isdigit()` restricted to ASCII digits: true iff the string is
nonempty and every character is a digit. -/
def pyIsDigit (s : String) : Bool := !(s == "") && s.toList.all Char.isDigit

/-- Worker for `pyReplace`, on character lists with fuel.  Scans left to
right; at a position where the pattern is a prefix, emits the replacement and
continues after the matched occurrence (the replacement is not rescanned),
exactly as Python `str.replace` does for a nonempty pattern. -/
def pyReplaceAux : Nat → List Char → List Char → List Char → List Char
  | 0, s, _, _ => s
  | _ + 1, [], _, _ => []
  | n + 1, c :: rest, pat, rep =>
    if pat.isPrefixOf (c :: rest) then
      rep ++ pyReplaceAux n (List.drop pat.length (c :: rest)) pat rep
    else c :: pyReplaceAux n rest pat rep

/-- Python `s.replace(pat, rep)` for a nonempty pattern (the plugin only ever
replaces the literal token `"{nickname}"`).  An empty pattern returns the
string unchanged (the plugin never hits that case). -/
def pyReplace (s pat rep : String) : String :=
  if pat.data = [] then s
  else ⟨pyReplaceAux s.data.length s.data pat.data rep.data⟩

/-- The class attribute `PrivateChatCooldown._cooldowns : Dict[str, float]`
(src/plugin.py line 40). -/
abbrev CooldownState := List (String × ℚ)

/-- The read `cls._cooldowns.get(user_id, 0)` — the recorded timestamp, with
the sentinel `0` when no record exists (src/plugin.py lines 45 and 56). -/
def lastTime (st : CooldownState) (u : String) : ℚ := (List.lookup u st).getD 0

/-- Embedding of `PrivateChatCooldown.can_send` (src/plugin.py lines 42-46):
`time.time() - last_time >= cooldown_seconds`. -/
def can_send (u : String) (cooldown_seconds : ℤ) (now : ℚ) (st : CooldownState) : Bool :=
  decide ((cooldown_seconds : ℚ) ≤ now - lastTime st u)

/-- Embedding of `PrivateChatCooldown.record_send` (src/plugin.py lines 48-51):
`cls._cooldowns[user_id] = time.time()`. -/
def record_send (st : CooldownState) (u : String) (now : ℚ) : CooldownState :=
  (u, now) :: st

/-- Embedding of `PrivateChatCooldown.get_remaining_time` (src/plugin.py lines
53-58): `max(0, int(cooldown_seconds - (time.time() - last_time)))`. -/
def get_remaining_time (u : String) (cooldown_seconds : ℤ) (now : ℚ)
    (st : CooldownState) : ℤ :=
  max 0 (pyTrunc ((cooldown_seconds : ℚ) - (now - lastTime st u)))

/-- The plugin configuration values read by the dispatch logic
(config schema, src/plugin.py lines 406-425).  Functions receive the whole
record and project the field they read, mirroring `get_config(path, default)`
calls on a loaded configuration. -/
structure Config where
  enabled : Bool
  cooldownSeconds : ℤ
  onlyKnownUsers : Bool
  defaultGreeting : String
  randomGreetings : List String
deriving DecidableEq

/-- Python truthiness of an optional string (`if person_id:`):
true iff present and nonempty. -/
def truthyOptStr : Option String → Bool
  | none => false
  | some s => !(s == "")

/-- Embedding of `is_user_known` (src/plugin.py lines 90-114).
`personRes` is the outcome of the `try` block around
`person_api.get_person_id(platform, int(user_id))` — `Except.error` covers any
exception, including `int()` failing; `streamRes` is the outcome of the `try`
block around `chat_api.get_stream_by_user_id`.  The first branch returns true
on a truthy `person_id`; otherwise the second branch returns true exactly when
a stream object was found (`chat_stream is not None`); otherwise false. -/
def is_user_known (personRes : Except String (Option String))
    (streamRes : Except String (Option String)) : Bool :=
  (match personRes with
    | Except.ok pid => truthyOptStr pid
    | Except.error _ => false) ||
  (match streamRes with
    | Except.ok (some _) => true
    | Except.ok none => false
    | Except.error _ => false)

/-- Embedding of `get_greeting_message` (src/plugin.py lines 117-127).
`r` is the value of `random.random()` and `choiceIx` the index drawn by
`random.choice` (reduced mod the list length).  The branch condition is the
code's `if random_greetings and random.random() > 0.3`. -/
def get_greeting_message (cfg : Config) (nickname : String) (r : ℚ) (choiceIx : ℕ) : String :=
  let message :=
    if cfg.randomGreetings ≠ [] ∧ 3 / 10 < r then
      cfg.randomGreetings.getD (choiceIx % cfg.randomGreetings.length) ""
    else cfg.defaultGreeting
  pyReplace message "{nickname}" nickname

/-- Branches of `send_private_message` after the cooldown gate (src/plugin.py
lines 156-182): stream lookup, transport call, cooldown recording on success,
and the surrounding exception handler.  `Except.error e` models an exception
with text `e` raised by the corresponding host call; the transport result is
only reached when a stream was found, as in the code. -/
def send_after_cooldown (user : String)
    (streamRes : Except String (Option String)) (transportRes : Except String Bool)
    (now : ℚ) (st : CooldownState) : CooldownState × Bool × String :=
  match streamRes with
  | Except.error e => (st, false, "发送出错: " ++ e)
  | Except.ok none => (st, false, "未找到用户 " ++ user ++ " 的私聊流")
  | Except.ok (some _) =>
    match transportRes with
    | Except.error e => (st, false, "发送出错: " ++ e)
    | Except.ok true => (record_send st user now, true, "私聊消息发送成功")
    | Except.ok false => (st, false, "消息发送失败")

/-- Embedding of `send_private_message` (src/plugin.py lines 130-182).
`cfg = none` models the default `config_getter=None`, under which the
`if config_getter:` cooldown block (lines 150-154) is skipped entirely. -/
def send_private_message (user message platform : String) (cfg : Option Config)
    (streamRes : Except String (Option String)) (transportRes : Except String Bool)
    (now : ℚ) (st : CooldownState) : CooldownState × Bool × String :=
  match cfg with
  | some c =>
    if can_send user c.cooldownSeconds now st then
      send_after_cooldown user streamRes transportRes now st
    else
      (st, false,
        "冷却中，还需等待 " ++ toString (get_remaining_time user c.cooldownSeconds now st) ++ " 秒")
  | none => send_after_cooldown user streamRes transportRes now st

/-- Observable outcome of one run of `ProactivePrivateChatAction.execute`:
final cooldown state, the returned `(success, message)` pair, and the
`user_id` argument passed to `send_private_message` if a send was attempted
(`none` when the run returned before reaching the send). -/
structure ActionOutcome where
  st : CooldownState
  success : Bool
  message : String
  sentTo : Option String
deriving DecidableEq

/-- Steps of `ProactivePrivateChatAction.execute` from the known-user gate to
the send (src/plugin.py lines 253-289), given the final resolved target id.
`isKnownRes` is the result `is_user_known` would return (consulted only when
`smart_chat.only_known_users` is set); `nickRes` is the nickname obtained by
the `try` block at lines 262-268, `none` modelling an exception (default
`"朋友"` either way). -/
def action_send_step (cfg : Config) (target messageContent platform : String)
    (isKnownRes : Bool) (nickRes : Option String) (r : ℚ) (choiceIx : ℕ)
    (streamRes : Except String (Option String)) (transportRes : Except String Bool)
    (now : ℚ) (st : CooldownState) : ActionOutcome :=
  if cfg.onlyKnownUsers && !isKnownRes then
    ⟨st, false, "该用户不是已知用户，跳过私聊", none⟩
  else
    let nickname := nickRes.getD "朋友"
    let message :=
      if messageContent = "" then get_greeting_message cfg nickname r choiceIx
      else pyReplace messageContent "{nickname}" nickname
    let res := send_private_message target message platform (some cfg) streamRes transportRes now st
    if res.2.1 then ⟨res.1, true, "成功向 " ++ nickname ++ " 发送了私聊消息", some target⟩
    else ⟨res.1, false, res.2.2, some target⟩

/-- Embedding of `ProactivePrivateChatAction.execute` (src/plugin.py lines
221-289).  `resolveByName` is the result of `get_user_id_by_name` (already an
`Option`, since that helper catches every exception and returns `None`);
`ctxUserId` is `self.user_id`.  Python truthiness tests (`if converted_user_id:`,
`if not target_user_id:`, `if self.user_id:`) are modelled by the explicit
emptiness checks. -/
def action_execute (cfg : Config) (targetUserId messageContent reason platform : String)
    (ctxUserId : Option String) (resolveByName : String → Option String)
    (isKnownRes : Bool) (nickRes : Option String) (r : ℚ) (choiceIx : ℕ)
    (streamRes : Except String (Option String)) (transportRes : Except String Bool)
    (now : ℚ) (st : CooldownState) : ActionOutcome :=
  if !cfg.enabled then ⟨st, false, "主动私聊功能已禁用", none⟩
  else if targetUserId ≠ "" ∧ pyIsDigit targetUserId = false then
    match resolveByName targetUserId with
    | some cid =>
      if cid = "" then
        ⟨st, false, "未找到用户 " ++ targetUserId ++ " 的ID，请检查用户名是否正确", none⟩
      else
        action_send_step cfg cid messageContent platform isKnownRes nickRes r choiceIx
          streamRes transportRes now st
    | none =>
      ⟨st, false, "未找到用户 " ++ targetUserId ++ " 的ID，请检查用户名是否正确", none⟩
  else if targetUserId = "" then
    match ctxUserId with
    | some uid =>
      if uid = "" then ⟨st, false, "未指定目标用户", none⟩
      else
        action_send_step cfg uid messageContent platform isKnownRes nickRes r choiceIx
          streamRes transportRes now st
    | none => ⟨st, false, "未指定目标用户", none⟩
  else
    action_send_step cfg targetUserId messageContent platform isKnownRes nickRes r choiceIx
      streamRes transportRes now st

/-- Embedding of `PrivateChatCommand.execute` (src/plugin.py lines 306-344).
`targetId` and `customMessage` are the regex match groups; `nickRes` is the
nickname from the `try` block at lines 321-325 (`none` = exception, default
`"用户"`).  The command uses the fixed platform `"qq"` and always blocks
further handling (the trailing `true`). -/
def command_execute (cfg : Config) (targetId : String) (customMessage : Option String)
    (nickRes : Option String) (r : ℚ) (choiceIx : ℕ)
    (streamRes : Except String (Option String)) (transportRes : Except String Bool)
    (now : ℚ) (st : CooldownState) : CooldownState × Bool × Option String × Bool :=
  if targetId = "" then
    (st, false, some "命令格式错误，请使用: /私聊 <用户ID> [消息内容]", true)
  else
    let nickname := nickRes.getD "用户"
    let message :=
      match customMessage with
      | some m =>
        if m = "" then get_greeting_message cfg nickname r choiceIx
        else pyReplace m "{nickname}" nickname
      | none => get_greeting_message cfg nickname r choiceIx
    let res := send_private_message targetId message "qq" (some cfg) streamRes transportRes now st
    if res.2.1 then
      (res.1, true, some ("已向 " ++ nickname ++ "(" ++ targetId ++ ") 发送私聊消息"), true)
    else (res.1, false, some ("发送失败: " ++ res.2.2), true)

/-- One entry of `chat_api.get_private_streams` as consumed by the list
command: the `user_id` / `user_name` fields of `chat_api.get_stream_info`,
each `none` when absent (defaults `"未知"` / `"未知用户"`). -/
structure StreamInfo where
  userId : Option String
  userName : Option String
deriving DecidableEq

/-- One rendered line `f"{i}. {user_name} (ID: {user_id})"`
(src/plugin.py lines 374-376). -/
def renderStream (i : ℕ) (s : StreamInfo) : String :=
  toString i ++ ". " ++ s.userName.getD "未知用户" ++ " (ID: " ++ s.userId.getD "未知" ++ ")"

/-- The loop `for i, stream in enumerate(private_streams[:20], 1)`
(src/plugin.py line 372), producing one rendered line per stream. -/
def entryLines : ℕ → List StreamInfo → List String
  | _, [] => []
  | i, s :: rest => renderStream i s :: entryLines (i + 1) rest

/-- The `lines` list built by `ListPrivateStreamsCommand.execute` for a
non-empty stream list (src/plugin.py lines 370-379): header, blank line, up to
20 entries, and the remainder note when more than 20 streams exist. -/
def listLines (streams : List StreamInfo) : List String :=
  ["📋 可用的私聊流列表：", ""] ++ entryLines 1 (streams.take 20) ++
    (if 20 < streams.length then
      ["... 还有 " ++ toString (streams.length - 20) ++ " 个私聊流"]
    else [])

/-- Embedding of `ListPrivateStreamsCommand.execute` (src/plugin.py lines
359-385).  `streamsRes` is the outcome of the `try` block around the
`chat_api` calls; `Except.error e` models an exception with text `e`. -/
def list_streams_execute (streamsRes : Except String (List StreamInfo)) :
    Bool × Option String × Bool :=
  match streamsRes with
  | Except.error e => (false, some ("获取失败: " ++ e), true)
  | Except.ok streams =>
    if streams.isEmpty then (true, some "当前没有可用的私聊流", true)
    else (true, some (String.intercalate "\n" (listLines streams)), true)

/-- A configuration with one random greeting, used in witnesses. -/
def greetingCfgA : Config :=
  ⟨true, 300, true, "嗨 {nickname}，最近怎么样呀？", ["你好 {nickname}"]⟩

/-- A configuration with no random greetings, used in witnesses. -/
def greetingCfgB : Config :=
  ⟨true, 300, true, "嗨 {nickname}，最近怎么样呀？", []⟩

/-- A concrete stream entry used in witnesses. -/
def sampleStream : StreamInfo := ⟨some "123", some "测试用户"⟩

lemma pyTrunc_eq_floor_of_nonneg {x : ℚ} (h : 0 ≤ x) : pyTrunc x = ⌊x⌋ := by
  rw [pyTrunc, Rat.floor_def]
  exact Int.tdiv_eq_ediv (Rat.num_nonneg.mpr h) (Int.ofNat_nonneg _)

lemma pyTrunc_nonpos {x : ℚ} (h : x < 0) : pyTrunc x ≤ 0 := by
  have hnum : x.num < 0 := by
    by_contra hc
    exact absurd (Rat.num_nonneg.mp (by omega)) (not_le.mpr h)
  have h1 : (0 : ℤ) ≤ (-x.num).tdiv x.den :=
    Int.tdiv_nonneg (by omega) (Int.ofNat_nonneg _)
  have h2 : (-x.num).tdiv x.den = -(x.num.tdiv x.den) := Int.neg_tdiv _ _
  rw [pyTrunc]
  omega

lemma max_pyTrunc_eq_max_floor (x : ℚ) : max 0 (pyTrunc x) = max 0 ⌊x⌋ := by
  rcases le_or_lt 0 x with h | h
  · rw [pyTrunc_eq_floor_of_nonneg h]
  · have h1 : pyTrunc x ≤ 0 := pyTrunc_nonpos h
    have h2 : ⌊x⌋ ≤ 0 := Int.floor_nonpos h.le
    omega

lemma can_send_eval_true {u : String} {c : ℤ} {now : ℚ} {st : CooldownState}
    (h : (c : ℚ) ≤ now - lastTime st u) : can_send u c now st = true := by
  rw [can_send]
  exact decide_eq_true h

lemma can_send_eval_false {u : String} {c : ℤ} {now : ℚ} {st : CooldownState}
    (h : ¬ (c : ℚ) ≤ now - lastTime st u) : can_send u c now st = false := by
  rw [can_send]
  exact decide_eq_false h

lemma get_remaining_time_eval {u : String} {c : ℤ} {now : ℚ} {st : CooldownState}
    {z : ℤ} (h0 : 0 ≤ z) (h1 : (z : ℚ) ≤ (c : ℚ) - (now - lastTime st u))
    (h2 : (c : ℚ) - (now - lastTime st u) < z + 1) :
    get_remaining_time u c now st = z := by
  rw [get_remaining_time, max_pyTrunc_eq_max_floor, Int.floor_eq_iff.mpr ⟨h1, h2⟩]
  omega

lemma get_remaining_time_eval_zero {u : String} {c : ℤ} {now : ℚ} {st : CooldownState}
    (h : (c : ℚ) - (now - lastTime st u) ≤ 0) :
    get_remaining_time u c now st = 0 := by
  rw [get_remaining_time, max_pyTrunc_eq_max_floor]
  have h2 : ⌊(c : ℚ) - (now - lastTime st u)⌋ ≤ 0 := Int.floor_nonpos h
  omega

lemma lookup_record_send_ne {v user : String} (st : CooldownState) (now : ℚ)
    (h : v ≠ user) : List.lookup v (record_send st user now) = List.lookup v st := by
  have hb : (v == user) = false := beq_eq_false_iff_ne.mpr h
  simp [record_send, List.lookup, hb]

lemma send_after_cooldown_spec (user : String)
    (streamRes : Except String (Option String)) (transportRes : Except String Bool)
    (now : ℚ) (st : CooldownState) :
    ((send_after_cooldown user streamRes transportRes now st).2.1 = false →
        (send_after_cooldown user streamRes transportRes now st).1 = st) ∧
      ((send_after_cooldown user streamRes transportRes now st).2.1 = true →
        (send_after_cooldown user streamRes transportRes now st).1 = record_send st user now ∧
          transportRes = Except.ok true ∧ ∃ sid, streamRes = Except.ok (some sid)) := by
  rcases streamRes with e | so
  · simp [send_after_cooldown]
  · rcases so with _ | sid
    · simp [send_after_cooldown]
    · rcases transportRes with e | b
      · simp [send_after_cooldown]
      · rcases b <;> simp [send_after_cooldown]

/-- C1 (amended): `can_send(U, C)` returns true iff `now - last ≥ C`, where
`last` is the recorded timestamp for `U`, or the sentinel `0` (the epoch) when
no record exists.  In particular a user with no record is eligible exactly
when the current epoch time is at least `C` seconds — not regardless of `C`.
The call reads the state and mutates nothing. -/
theorem can_send_characterization (u : String) (c : ℤ) (now : ℚ) (st : CooldownState) :
    can_send u c now st = true ↔
      ((∃ t, List.lookup u st = some t ∧ (c : ℚ) ≤ now - t) ∨
        (List.lookup u st = none ∧ (c : ℚ) ≤ now)) := by
  unfold can_send lastTime
  rcases h : List.lookup u st with _ | t <;> simp [h]

/-- C1 counterexample: for a user with no cooldown record, `can_send` is not
true regardless of the window — with the map empty, current time 1700000000
and window 2000000000 the code returns `false`, because the missing record is
treated as timestamp `0` rather than as unconditional eligibility. -/
theorem can_send_no_record_counterexample :
    List.lookup "42" ([] : CooldownState) = none ∧
      can_send "42" 2000000000 1700000000 [] = false := by
  refine ⟨rfl, can_send_eval_false ?_⟩
  have h : lastTime ([] : CooldownState) "42" = 0 := rfl
  rw [h]
  norm_num

/-- C2 (amended): `get_remaining_time(U, C)` returns
`max(0, ⌊C - elapsed⌋)` — a floor, not a ceiling, because Python `int()`
truncates — where `elapsed = now - last` and `last` is the recorded timestamp
or the sentinel `0` when no record exists.  The result is never negative, and
it is `0` for a never-recorded user whenever `C ≤ now`. -/
theorem get_remaining_time_floor_spec (u : String) (c : ℤ) (now : ℚ) (st : CooldownState) :
    get_remaining_time u c now st = max 0 ⌊(c : ℚ) - (now - lastTime st u)⌋ ∧
      0 ≤ get_remaining_time u c now st ∧
      (List.lookup u st = none → (c : ℚ) ≤ now → get_remaining_time u c now st = 0) := by
  refine ⟨max_pyTrunc_eq_max_floor _, le_max_left _ _, ?_⟩
  intro hnone hc
  have hlast : lastTime st u = 0 := by rw [lastTime, hnone]; rfl
  refine get_remaining_time_eval_zero ?_
  rw [hlast]
  linarith

theorem get_remaining_time_floor_spec_witness :
    get_remaining_time "7" 300 1700000000 [] = 0 :=
  (get_remaining_time_floor_spec "7" 300 1700000000 []).2.2 rfl (by norm_num)

/-- C2 counterexample: with a send recorded at 1700000000, current time
1700000000.5 and window 300, the code returns 299 (truncation of 299.5), while
the claimed formula `max(0, ceil(C - elapsed))` gives 300. -/
theorem get_remaining_time_ceil_counterexample :
    get_remaining_time "42" 300 (1700000000 + 1 / 2) [("42", 1700000000)] = 299 ∧
      max 0 ⌈(300 : ℚ) - ((1700000000 + 1 / 2) - 1700000000)⌉ = 300 := by
  have hl : lastTime [("42", (1700000000 : ℚ))] "42" = 1700000000 := rfl
  constructor
  · refine get_remaining_time_eval (by norm_num) ?_ ?_ <;> rw [hl] <;> norm_num
  · have h : ⌈(300 : ℚ) - ((1700000000 + 1 / 2) - 1700000000)⌉ = 300 :=
      Int.ceil_eq_iff.mpr (by constructor <;> norm_num)
    rw [h]
    rfl

/-- C3 (amended): `can_send` true implies `get_remaining_time` is `0`;
conversely `get_remaining_time = 0` only guarantees that strictly less than
one second of the window remains (`C - elapsed < 1`).  The claimed
biconditional fails when `0 < C - elapsed < 1`, because the remaining time is
truncated to an integer. -/
theorem can_send_remaining_consistency (u : String) (c : ℤ) (now : ℚ) (st : CooldownState) :
    (can_send u c now st = true → get_remaining_time u c now st = 0) ∧
      (get_remaining_time u c now st = 0 →
        (c : ℚ) - (now - lastTime st u) < 1) := by
  constructor
  · intro h
    have hc : (c : ℚ) ≤ now - lastTime st u := of_decide_eq_true h
    exact get_remaining_time_eval_zero (by linarith)
  · intro h
    rw [get_remaining_time, max_pyTrunc_eq_max_floor] at h
    have hfl : ⌊(c : ℚ) - (now - lastTime st u)⌋ ≤ 0 := by omega
    have hlt := Int.lt_floor_add_one ((c : ℚ) - (now - lastTime st u))
    have hcast : (⌊(c : ℚ) - (now - lastTime st u)⌋ : ℚ) ≤ 0 := by exact_mod_cast hfl
    linarith

theorem can_send_remaining_consistency_witness :
    get_remaining_time "42" 300 500 [("42", 100)] = 0 ∧
      (300 : ℚ) - ((1700000000 + 599 / 2) - (lastTime [("42", 1700000000)] "42")) < 1 :=
  ⟨(can_send_remaining_consistency "42" 300 500 [("42", 100)]).1
      (can_send_eval_true
        (by rw [show lastTime [("42", (100 : ℚ))] "42" = 100 from rfl]; norm_num)),
    (can_send_remaining_consistency "42" 300 (1700000000 + 599 / 2)
      [("42", 1700000000)]).2
      (get_remaining_time_eval (le_refl 0)
        (by rw [show lastTime [("42", (1700000000 : ℚ))] "42" = 1700000000 from rfl]; norm_num)
        (by rw [show lastTime [("42", (1700000000 : ℚ))] "42" = 1700000000 from rfl]; norm_num))⟩

/-- C3 counterexample: with a send recorded at 1700000000, window 300 and
current time 1700000000 + 299.5 (elapsed 299.5 s), `can_send` is `false` but
`get_remaining_time` is `0` — the claimed equivalence fails at one instant
with no concurrency involved. -/
theorem cooldown_consistency_counterexample :
    can_send "42" 300 (1700000000 + 599 / 2) [("42", 1700000000)] = false ∧
      get_remaining_time "42" 300 (1700000000 + 599 / 2) [("42", 1700000000)] = 0 := by
  have hl : lastTime [("42", (1700000000 : ℚ))] "42" = 1700000000 := rfl
  constructor
  · refine can_send_eval_false ?_
    rw [hl]
    norm_num
  · refine get_remaining_time_eval (le_refl 0) ?_ ?_ <;> rw [hl] <;> norm_num

/-- C4: `send_private_message` leaves the cooldown state untouched on every
failing run (cooldown active, no stream, transport failure, or an exception in
stream lookup or delivery), and on a successful run — which requires passing
the cooldown gate when a config is supplied, a stream being found, and the
transport reporting success — it sets exactly the target user's record to the
current time, leaving every other user's record unchanged. -/
theorem send_private_message_state_spec (user message platform : String) (cfg : Option Config)
    (streamRes : Except String (Option String)) (transportRes : Except String Bool)
    (now : ℚ) (st : CooldownState) :
    ((send_private_message user message platform cfg streamRes transportRes now st).2.1 = false →
        (send_private_message user message platform cfg streamRes transportRes now st).1 = st) ∧
      ((send_private_message user message platform cfg streamRes transportRes now st).2.1 = true →
        (send_private_message user message platform cfg streamRes transportRes now st).1 =
            record_send st user now ∧
          transportRes = Except.ok true ∧ (∃ sid, streamRes = Except.ok (some sid)) ∧
          ∀ c, cfg = some c → can_send user c.cooldownSeconds now st = true) ∧
      (∀ v, v ≠ user →
        List.lookup v
            (send_private_message user message platform cfg streamRes transportRes now st).1 =
          List.lookup v st) := by
  have hcore := send_after_cooldown_spec user streamRes transportRes now st
  have hlook : ∀ res : CooldownState × Bool × String,
      (res.2.1 = false → res.1 = st) →
      (res.2.1 = true → res.1 = record_send st user now) →
      ∀ v, v ≠ user → List.lookup v res.1 = List.lookup v st := by
    intro res hf ht v hv
    cases hres : res.2.1 with
    | false => rw [hf hres]
    | true => rw [ht hres]; exact lookup_record_send_ne st now hv
  rcases cfg with _ | c
  · simp only [send_private_message]
    exact ⟨hcore.1,
      fun h => ⟨(hcore.2 h).1, (hcore.2 h).2.1, (hcore.2 h).2.2,
        fun c hc => by cases hc⟩,
      hlook _ hcore.1 (fun h => (hcore.2 h).1)⟩
  · simp only [send_private_message]
    by_cases hcs : can_send user c.cooldownSeconds now st = true
    · rw [if_pos hcs]
      exact ⟨hcore.1,
        fun h => ⟨(hcore.2 h).1, (hcore.2 h).2.1, (hcore.2 h).2.2,
          fun c' hc' => by cases hc'; exact hcs⟩,
        hlook _ hcore.1 (fun h => (hcore.2 h).1)⟩
    · rw [if_neg hcs]
      exact ⟨fun _ => rfl, fun h => absurd h (by simp), fun v hv => rfl⟩

theorem send_private_message_state_spec_witness :
    (send_private_message "42" "hi" "qq" none (Except.ok (some "s1")) (Except.ok true)
        1700000000 []).1 = record_send [] "42" 1700000000 ∧
      (send_private_message "42" "hi" "qq" none (Except.ok (some "s1")) (Except.ok false)
        1700000000 [("9", 5)]).1 = [("9", 5)] :=
  ⟨((send_private_message_state_spec "42" "hi" "qq" none (Except.ok (some "s1"))
      (Except.ok true) 1700000000 []).2.1 rfl).1,
    (send_private_message_state_spec "42" "hi" "qq" none (Except.ok (some "s1"))
      (Except.ok false) 1700000000 [("9", 5)]).1 rfl⟩

/-- C5: `is_user_known` returns true iff the profile lookup returned a truthy
`person_id`, or a conversation stream object was found — each branch's
exception is absorbed by its own handler, so a failing branch simply counts
as "no" and no exception escapes (the embedding is a total function on the
two branch outcomes, error cases included). -/
theorem is_user_known_or_fallback (p s : Except String (Option String)) :
    is_user_known p s = true ↔
      ((∃ pid, p = Except.ok (some pid) ∧ pid ≠ "") ∨
        (∃ sid, s = Except.ok (some sid))) := by
  rcases p with e | po
  · rcases s with f | so
    · simp [is_user_known]
    · rcases so with _ | sid <;> simp [is_user_known]
  · rcases po with _ | pid
    · rcases s with f | so
      · simp [is_user_known, truthyOptStr]
      · rcases so with _ | sid <;> simp [is_user_known, truthyOptStr]
    · rcases s with f | so
      · simp [is_user_known, truthyOptStr]
      · rcases so with _ | sid <;> simp [is_user_known, truthyOptStr]

/-- C6: when the autonomous trigger runs (feature enabled) with a non-empty,
non-numeric target, and name-to-id resolution returns nothing, `execute`
returns failure with the user-not-found message, attempts no send
(`sentTo = none`), and leaves the cooldown state untouched — the unresolved
name is never passed onward as a user id. -/
theorem action_unresolved_name_no_send (cfg : Config)
    (target messageContent reason platform : String) (ctxUserId : Option String)
    (resolveByName : String → Option String) (isKnownRes : Bool) (nickRes : Option String)
    (r : ℚ) (choiceIx : ℕ)
    (streamRes : Except String (Option String)) (transportRes : Except String Bool)
    (now : ℚ) (st : CooldownState)
    (henabled : cfg.enabled = true) (hne : target ≠ "") (hdig : pyIsDigit target = false)
    (hres : resolveByName target = none) :
    action_execute cfg target messageContent reason platform ctxUserId resolveByName
        isKnownRes nickRes r choiceIx streamRes transportRes now st =
      ⟨st, false, "未找到用户 " ++ target ++ " 的ID，请检查用户名是否正确", none⟩ := by
  rw [action_execute.eq_def]
  simp [henabled, hne, hdig, hres]

theorem action_unresolved_name_no_send_witness :
    action_execute ⟨true, 300, true, "嗨 {nickname}，最近怎么样呀？", []⟩ "小明" "" "想你" "qq"
        none (fun _ => none) true none 0 0 (Except.ok none) (Except.ok false) 0 [] =
      ⟨[], false, "未找到用户 " ++ "小明" ++ " 的ID，请检查用户名是否正确", none⟩ :=
  action_unresolved_name_no_send ⟨true, 300, true, "嗨 {nickname}，最近怎么样呀？", []⟩
    "小明" "" "想你" "qq" none (fun _ => none) true none 0 0 (Except.ok none)
    (Except.ok false) 0 [] rfl (by decide) (by decide) rfl

/-- C7: greeting selection — with an empty random-greetings list the default
template is used no matter what was drawn; with `r ≤ 0.3` the default is used;
with a non-empty list and `r > 0.3` the template at the drawn index is used
(each index below the length is reachable, i.e. the draw is over the whole
list); and in every case the `{nickname}` token is substituted in the chosen
template. -/
theorem greeting_selection_spec (cfg : Config) (nick : String) (r : ℚ) (i : ℕ) :
    (cfg.randomGreetings = [] →
      get_greeting_message cfg nick r i = pyReplace cfg.defaultGreeting "{nickname}" nick) ∧
      (r ≤ 3 / 10 →
        get_greeting_message cfg nick r i = pyReplace cfg.defaultGreeting "{nickname}" nick) ∧
      (∀ h : i < cfg.randomGreetings.length, 3 / 10 < r →
        get_greeting_message cfg nick r i =
          pyReplace (cfg.randomGreetings.get ⟨i, h⟩) "{nickname}" nick) := by
  refine ⟨?_, ?_, ?_⟩
  · intro h
    rw [get_greeting_message]
    simp [h]
  · intro h
    rw [get_greeting_message]
    simp [not_lt.mpr h]
  · intro h hr
    rw [get_greeting_message]
    have hne : cfg.randomGreetings ≠ [] := List.ne_nil_of_length_pos (by omega)
    simp only [hne, hr, and_true, ne_eq, not_false_iff, if_true, if_pos]
    rw [Nat.mod_eq_of_lt h, List.getD_eq_get?, List.get?_eq_get h]
    rfl

theorem greeting_selection_spec_witness :
    get_greeting_message greetingCfgA "Alex" (1 / 2) 0 = "你好 Alex" ∧
      get_greeting_message greetingCfgB "Alex" (9 / 10) 5 = "嗨 Alex，最近怎么样呀？" := by
  constructor
  · have h := (greeting_selection_spec greetingCfgA "Alex" (1 / 2) 0).2.2
      (by decide) (by norm_num)
    rw [h]
    decide
  · have h := (greeting_selection_spec greetingCfgB "Alex" (9 / 10) 5).1 rfl
    rw [h]
    decide

/-- C8: the slash-command path reads neither `general.enabled` nor
`smart_chat.only_known_users` — its outcome is identical under any values of
those two fields (first conjunct, a noninterference equality over all inputs),
and concretely a send succeeds even with the kill-switch off (second
conjunct); the embedding of the command takes no known-user input at all,
matching the absence of any `is_user_known` call on this path. -/
theorem command_ignores_enabled_and_known_users :
    (∀ (e k : Bool) (cfg : Config) (targetId : String) (customMessage : Option String)
        (nickRes : Option String) (r : ℚ) (choiceIx : ℕ)
        (streamRes : Except String (Option String)) (transportRes : Except String Bool)
        (now : ℚ) (st : CooldownState),
      command_execute ⟨e, cfg.cooldownSeconds, k, cfg.defaultGreeting, cfg.randomGreetings⟩
          targetId customMessage nickRes r choiceIx streamRes transportRes now st =
        command_execute cfg targetId customMessage nickRes r choiceIx streamRes
          transportRes now st) ∧
      (command_execute ⟨false, 300, true, "嗨 {nickname}，最近怎么样呀？", []⟩ "42"
          (some "hello") none 0 0 (Except.ok (some "s1")) (Except.ok true)
          1700000000 []).2.1 = true := by
  constructor
  · intro e k cfg targetId customMessage nickRes r choiceIx streamRes transportRes now st
    cases cfg
    rfl
  · have hc : can_send "42" 300 1700000000 ([] : CooldownState) = true :=
      can_send_eval_true
        (by rw [show lastTime ([] : CooldownState) "42" = 0 from rfl]; norm_num)
    simp [command_execute, send_private_message, hc, send_after_cooldown]

/-- C9: with `config_getter = None` (the default), `send_private_message`
skips the cooldown gate entirely — the returned `(success, message)` pair is
the same for every prior cooldown state — and a successful send still records
the current time for the target user. -/
theorem send_without_config_skips_cooldown (user message platform : String)
    (streamRes : Except String (Option String)) (transportRes : Except String Bool)
    (now : ℚ) (st st' : CooldownState) :
    (send_private_message user message platform none streamRes transportRes now st).2 =
        (send_private_message user message platform none streamRes transportRes now st').2 ∧
      ((send_private_message user message platform none streamRes transportRes now st).2.1 =
          true →
        (send_private_message user message platform none streamRes transportRes now st).1 =
          record_send st user now) := by
  constructor
  · rcases streamRes with e | so
    · rfl
    · rcases so with _ | sid
      · rfl
      · rcases transportRes with e | b
        · rfl
        · rcases b <;> rfl
  · intro h
    exact ((send_after_cooldown_spec user streamRes transportRes now st).2 h).1

theorem send_without_config_skips_cooldown_witness :
    (send_private_message "42" "hi" "qq" none (Except.ok (some "s1")) (Except.ok true)
        1700000000 [("42", 1700000000)]).1 =
      record_send [("42", 1700000000)] "42" 1700000000 :=
  (send_without_config_skips_cooldown "42" "hi" "qq" (Except.ok (some "s1")) (Except.ok true)
    1700000000 [("42", 1700000000)] []).2 rfl

lemma entryLines_length (k : ℕ) (l : List StreamInfo) :
    (entryLines k l).length = l.length := by
  induction l generalizing k with
  | nil => rfl
  | cons s t ih => simp [entryLines, ih]

lemma entryLines_get? (k : ℕ) (l : List StreamInfo) (i : ℕ) :
    (entryLines k l).get? i = (l.get? i).map (fun s => renderStream (k + i) s) := by
  induction l generalizing k i with
  | nil => simp [entryLines]
  | cons s t ih =>
    cases i with
    | zero => simp [entryLines]
    | succ j =>
      rw [entryLines]
      simp only [List.get?_cons_succ, ih (k + 1) j]
      have : k + 1 + j = k + (j + 1) := by omega
      rw [this]

/-- C10: the list command — on an empty registered-stream list it returns
exactly the fixed no-streams message; on a non-empty list it returns the
joined `listLines`; `listLines` has the header, the blank line, one entry per
stream up to the first 20 (the line at offset `2 + i` renders stream `i` with
index `i + 1`, display name and id), plus one remainder note exactly when
more than 20 streams exist, and that note (stating how many remain) is the
last line. -/
theorem list_streams_spec (streams : List StreamInfo) :
    (streams = [] →
      list_streams_execute (Except.ok streams) = (true, some "当前没有可用的私聊流", true)) ∧
      (streams ≠ [] →
        list_streams_execute (Except.ok streams) =
          (true, some (String.intercalate "\n" (listLines streams)), true)) ∧
      (listLines streams).length =
        2 + min streams.length 20 + (if 20 < streams.length then 1 else 0) ∧
      (∀ i s, streams.get? i = some s → i < 20 →
        (listLines streams).get? (2 + i) = some (renderStream (i + 1) s)) ∧
      (20 < streams.length →
        (listLines streams).getLast? =
          some ("... 还有 " ++ toString (streams.length - 20) ++ " 个私聊流")) := by
  refine ⟨?_, ?_, ?_, ?_, ?_⟩
  · intro h
    subst h
    rfl
  · intro h
    rcases streams with _ | ⟨a, t⟩
    · exact absurd rfl h
    · rfl
  · by_cases h : 20 < streams.length <;>
      simp [listLines, entryLines_length, List.length_take, h] <;> omega
  · intro i s hgets hi
    have hlt : i < streams.length := by
      rcases List.get?_eq_some.mp hgets with ⟨hl, _⟩
      exact hl
    have hbl : i < (entryLines 1 (streams.take 20)).length := by
      rw [entryLines_length, List.length_take]
      omega
    rw [listLines, List.get?_append (by simp; omega),
      List.get?_append_right (by simp)]
    simp only [List.length_cons, List.length_nil]
    have h2 : 2 + i - 2 = i := by omega
    rw [h2, entryLines_get?, List.get?_take hi, hgets]
    simp [Nat.add_comm]
  · intro h
    rw [listLines, if_pos h]
    rw [show (["📋 可用的私聊流列表：", ""] ++ entryLines 1 (streams.take 20) ++
        ["... 还有 " ++ toString (streams.length - 20) ++ " 个私聊流"]) =
      ((["📋 可用的私聊流列表：", ""] ++ entryLines 1 (streams.take 20)) ++
        ["... 还有 " ++ toString (streams.length - 20) ++ " 个私聊流"]) from rfl]
    exact List.getLast?_concat _

theorem list_streams_spec_witness :
    list_streams_execute (Except.ok []) = (true, some "当前没有可用的私聊流", true) ∧
      (listLines (List.replicate 21 sampleStream)).get? 2 =
        some (renderStream 1 sampleStream) ∧
      (listLines (List.replicate 21 sampleStream)).getLast? =
        some ("... 还有 " ++ toString (21 - 20) ++ " 个私聊流") := by
  refine ⟨(list_streams_spec []).1 rfl, ?_, ?_⟩
  · have h := (list_streams_spec (List.replicate 21 sampleStream)).2.2.2.1 0 sampleStream
      (by decide) (by decide)
    exact h
  · have h := (list_streams_spec (List.replicate 21 sampleStream)).2.2.2.2 (by decide)
    simpa using h
